import Mathlib

/-!
Verification development for the sharepoint-mcp repository.

The repository exposes SharePoint operations as MCP tools.  The parts
verified here are:

* the configuration constants of `config/settings.py`;
* the two URL-parsing helpers `parse_site_url` of `tools/site_tools.py`
  and `services/sharepoint_service.py`;
* the token-validity check of `auth/sharepoint_auth.py`;
* the document-processing pipeline (`DocumentProcessor.process_document`)
  and the content generator (`ContentGenerator.generate_list_schema`),
  whose implementation files are not part of the sources at hand; those
  two components are modelled from the specification, faithful to its
  words, with the per-format parsing libraries treated as external
  parameters.

Byte sequences are modelled as `List Nat`; Python strings as Lean
`String`.  Python string helpers (`str.replace`, `str.split`,
`str.lower`) are re-implemented below with fuel-based structural
recursion so that every definition is executable and kernel-reducible.
-/

/-- Worker for Python `str.replace` on char lists: replaces every
non-overlapping occurrence of `pat`, scanning left to right.  The
`fuel` bounds the recursion; the wrappers always supply the
input length, which suffices because each step consumes at least one
character.  An empty pattern leaves the input unchanged (the repository
never calls `replace` with an empty pattern). -/
def pyReplaceGo (pat repl : List Char) : Nat → List Char → List Char
  | 0, l => l
  | _ + 1, [] => []
  | fuel + 1, c :: rest =>
    if pat ≠ [] ∧ pat.isPrefixOf (c :: rest) then
      repl ++ pyReplaceGo pat repl fuel (List.drop (pat.length - 1) rest)
    else
      c :: pyReplaceGo pat repl fuel rest

/-- Python `s.replace(pat, repl)` (all occurrences). -/
def pyReplace (s pat repl : String) : String :=
  ⟨pyReplaceGo pat.data repl.data s.data.length s.data⟩

/-- Worker for Python `str.split(sep)` with a non-empty separator:
splits on every occurrence, keeping empty fields, so `"".split(sep)`
gives `[""]`. -/
def pySplitGo (sep : List Char) : Nat → List Char → List Char → List (List Char)
  | 0, cur, l => [cur.reverse ++ l]
  | _ + 1, cur, [] => [cur.reverse]
  | fuel + 1, cur, c :: rest =>
    if sep ≠ [] ∧ sep.isPrefixOf (c :: rest) then
      cur.reverse :: pySplitGo sep fuel [] (List.drop (sep.length - 1) rest)
    else
      pySplitGo sep fuel (c :: cur) rest

/-- Python `s.split(sep)` for a non-empty separator. -/
def pySplit (s sep : String) : List String :=
  (pySplitGo sep.data s.data.length [] s.data).map fun l => ⟨l⟩

/-- Python `str.lower` (ASCII letters; the extensions involved are ASCII). -/
def pyLower (s : String) : String :=
  ⟨s.data.map Char.toLower⟩

/-- First `n` characters of a string (Python slicing `s[:n]`). -/
def takeChars (n : Nat) (s : String) : String :=
  ⟨s.data.take n⟩

/-!
## Configuration (src/config/settings.py)
-/

/-- Shape of the `DOCUMENT_PROCESSING` settings dictionary. -/
structure DocumentProcessingConfig where
  max_text_preview_length : Nat
  max_rows_preview : Nat
  supported_extensions : List String
deriving DecidableEq, Repr

/-- The `DOCUMENT_PROCESSING` dictionary of `config/settings.py`. -/
def DOCUMENT_PROCESSING : DocumentProcessingConfig :=
  { max_text_preview_length := 5000
    max_rows_preview := 50
    supported_extensions :=
      ["csv", "xlsx", "xls", "docx", "pdf", "txt", "md", "html", "htm"] }

/-- Shape of the `CONTENT_GENERATION` settings dictionary. -/
structure ContentGenerationConfig where
  default_audience : String
  default_purpose : String
  enable_rich_layout : Bool
deriving DecidableEq, Repr

/-- The `CONTENT_GENERATION` dictionary of `config/settings.py`. -/
def CONTENT_GENERATION : ContentGenerationConfig :=
  { default_audience := "general"
    default_purpose := "general"
    enable_rich_layout := true }

/-!
## URL parsing (src/tools/site_tools.py and src/services/sharepoint_service.py)

Both layers define a module-level `parse_site_url`.  Each is embedded
separately, faithful to its own source.
-/

/-- Shared protocol stripping: `site_url.replace("https://", "").replace("http://", "")`. -/
def stripProtocol (site_url : String) : String :=
  pyReplace (pyReplace site_url "https://" "") "http://" ""

/-- The `parse_site_url` of `tools/site_tools.py`: domain is the first
slash-separated part; site name is the third part when there are more
than two parts, else `"root"`. -/
def site_tools_parse_site_url (site_url : String) : String × String :=
  let parts := pySplit (stripProtocol site_url) "/"
  let domain := parts.getD 0 ""
  let site_name := if parts.length > 2 then parts.getD 2 "" else "root"
  (domain, site_name)

/-- The `parse_site_url` of `services/sharepoint_service.py`: domain is the
first slash-separated part; site name is the third part when there are
more than two parts and the second part is `"sites"`, else `""`. -/
def service_parse_site_url (site_url : String) : String × String :=
  let parts := pySplit (stripProtocol site_url) "/"
  let domain := parts.getD 0 ""
  let site_name :=
    if parts.length > 2 ∧ parts.getD 1 "" = "sites" then parts.getD 2 ""
    else ""
  (domain, site_name)

/-!
## Auth context (src/auth/sharepoint_auth.py)
-/

/-- The `SharePointContext` dataclass.  `token_expiry` is typed
`datetime` in the dataclass but the code guards against `None`
(`if not self.token_expiry: return False`); `datetime` instances are
always truthy in Python, so the only falsy value is `None`, modelled by
`Option`.  Instants are modelled as integers. -/
structure SharePointContext where
  access_token : String
  token_expiry : Option Int
  graph_url : String := "https://graph.microsoft.com/v1.0"
deriving DecidableEq, Repr

/-- The method `SharePointContext.is_token_valid`, with the current time
(`datetime.now()`) passed explicitly: `False` on a missing expiry,
otherwise `now < token_expiry` (strict). -/
def SharePointContext.is_token_valid (ctx : SharePointContext) (now : Int) : Bool :=
  match ctx.token_expiry with
  | none => false
  | some expiry => decide (now < expiry)

/-!
## Document Processor

The implementation file (`utils/document_processor.py`) is not among the
sources at hand — only its callers (`tools/site_tools.py`,
`services/sharepoint_service.py`) are — so the processor is modelled
from the specification.  The per-format parsing libraries (python-docx,
openpyxl/xlrd, PyPDF) are external collaborators and enter the model as
a parameter of fallible parsing functions.
-/

/-- Modelled from the spec: the result type `ProcessedContent`, a tagged
union over document kind carrying a bounded preview (string or rows), a
`truncated` flag and optional format-specific metadata; failures are the
`error` variant and unrecognized extensions the `unsupported` variant. -/
inductive ProcessedContent where
  | textDoc (ptype : String) (preview : String) (truncated : Bool)
      (metadata : List (String × Nat))
  | tabular (ptype : String) (headers : List String) (rows : List (List String))
      (total_rows : Nat) (truncated : Bool) (metadata : List (String × Nat))
  | unsupported (extension : String)
  | error (message : String)
deriving DecidableEq, Repr

/-- Modelled from the spec: the first worksheet's rows, the sheet names
(for sheet name and sheet count metadata) of a parsed workbook. -/
structure ExcelWorkbook where
  sheet_names : List String
  first_sheet_rows : List (List String)

/-- Modelled from the spec: the external per-format parsing libraries
(missing from the sources) as fallible functions: a Word parser yielding
paragraphs in document order, an Excel parser yielding a workbook, a PDF
parser yielding per-page extracted text (`none` for a page whose
extraction fails). -/
structure ExternalParsers where
  parse_docx : List Nat → Except String (List String)
  parse_excel : List Nat → Except String ExcelWorkbook
  parse_pdf : List Nat → Except String (List (Option String))

/-- Modelled from the spec: permissive UTF-8 decoding that never fails —
ASCII bytes decode to themselves, undecodable (non-ASCII) bytes are
replaced with U+FFFD. -/
def pyDecode (content : List Nat) : String :=
  ⟨content.map fun b => if b < 128 then Char.ofNat b else Char.ofNat 0xFFFD⟩

/-- Modelled from the spec: the extension of a filename — the part after
the last dot, empty when the filename contains no dot. -/
def extRaw (filename : String) : String :=
  let comps := pySplit filename "."
  if comps.length ≥ 2 then comps.getLastD "" else ""

/-- The dispatch key: the lowercased extension. -/
def extKey (filename : String) : String :=
  pyLower (extRaw filename)

/-- Modelled from the spec: the closed set of format handlers the
dispatch routes to. -/
inductive DocKind where
  | text | csv | excel | word | pdf | html | unknown
deriving DecidableEq, Repr

/-- Modelled from the spec: which handler a (lowercased) extension
routes to. -/
def kindOfExt (ext : String) : DocKind :=
  if ext = "txt" ∨ ext = "md" then .text
  else if ext = "csv" then .csv
  else if ext = "xlsx" ∨ ext = "xls" then .excel
  else if ext = "docx" then .word
  else if ext = "pdf" then .pdf
  else if ext = "html" ∨ ext = "htm" then .html
  else .unknown

/-- Modelled from the spec: the text truncation rule — truncate to the
configured maximum preview length and set `truncated` exactly when the
original text length exceeds that bound. -/
def text_result (cfg : DocumentProcessingConfig) (ptype : String)
    (metadata : List (String × Nat)) (s : String) : ProcessedContent :=
  .textDoc ptype (takeChars cfg.max_text_preview_length s)
    (decide (s.length > cfg.max_text_preview_length)) metadata

/-- Modelled from the spec: the tabular truncation rule — the first
parsed row is the column headers, the remaining rows are data; at most
`max_rows_preview` data rows are returned, with the total data row count
and `truncated` set exactly when the data row count exceeds the bound. -/
def make_tabular (cfg : DocumentProcessingConfig) (ptype : String)
    (metadata : List (String × Nat)) (parsed : List (List String)) : ProcessedContent :=
  let headers := parsed.headD []
  let dataRows := parsed.tail
  .tabular ptype headers (dataRows.take cfg.max_rows_preview) dataRows.length
    (decide (dataRows.length > cfg.max_rows_preview)) metadata

/-- Modelled from the spec: CSV row parsing — non-empty lines split on
commas; blank lines (the spec's skipped malformed rows) contribute no
row and parsing itself never fails. -/
def parseCsv (text : String) : List (List String) :=
  ((pySplit text "\n").filter fun line => line ≠ "").map fun line => pySplit line ","

/-- Join strings with newlines (paragraph / page joining). -/
def joinNl : List String → String
  | [] => ""
  | [s] => s
  | s :: rest => s ++ "\n" ++ joinNl rest

/-- Case-insensitive scan dropping everything up to and through the
first occurrence of `pat`; empty when `pat` does not occur. -/
def dropThroughCI (pat : List Char) : Nat → List Char → List Char
  | 0, _ => []
  | _ + 1, [] => []
  | fuel + 1, c :: rest =>
    if pat.isPrefixOf ((c :: rest).map Char.toLower) then
      List.drop (pat.length - 1) rest
    else
      dropThroughCI pat fuel rest

/-- Modelled from the spec: HTML markup stripping — tags are removed and
the content of `script` and `style` elements is dropped. -/
def stripHtmlGo : Nat → List Char → List Char
  | 0, _ => []
  | _ + 1, [] => []
  | fuel + 1, c :: rest =>
    if c = '<' then
      if ['s','c','r','i','p','t'].isPrefixOf (rest.map Char.toLower) then
        stripHtmlGo fuel (dropThroughCI ['<','/','s','c','r','i','p','t','>'] fuel rest)
      else if ['s','t','y','l','e'].isPrefixOf (rest.map Char.toLower) then
        stripHtmlGo fuel (dropThroughCI ['<','/','s','t','y','l','e','>'] fuel rest)
      else
        stripHtmlGo fuel (List.drop 1 (List.dropWhile (fun d => d ≠ '>') rest))
    else
      c :: stripHtmlGo fuel rest

/-- Modelled from the spec: strip markup to plain text. -/
def stripHtml (s : String) : String :=
  ⟨stripHtmlGo (s.data.length + 1) s.data⟩

/-- Modelled from the spec: the PDF page-count budget bounding how many
pages are scanned.  The spec leaves the numeric value open ("a
page-count budget", not externally configurable); `10` is a
representative fixed internal constant. -/
def PDF_PAGE_BUDGET : Nat := 10

/-- Modelled from the spec: PDF handling — pages are scanned up to the
page budget; a page whose extraction fails contributes empty text,
unless every page fails, which is an error.  Total page count and pages
actually scanned are recorded in metadata. -/
def pdf_result (pages : List (Option String)) : Except String ProcessedContent :=
  if pages ≠ [] ∧ pages.all (fun p => p.isNone) then
    .error "text extraction failed for every page"
  else
    let scanned := pages.take PDF_PAGE_BUDGET
    .ok (.textDoc "pdf" (joinNl (scanned.map fun p => p.getD ""))
      (decide (pages.length > PDF_PAGE_BUDGET))
      [("total_pages", pages.length), ("pages_scanned", scanned.length)])

/-- Modelled from the spec: the per-kind handlers.  A handler returns
`Except`: `error` is an uncaught parsing-library fault, which the
boundary wrapper `process_document` converts to the `error` variant. -/
def process_by_kind (P : ExternalParsers) (cfg : DocumentProcessingConfig)
    (extensionRaw : String) : DocKind → List Nat → Except String ProcessedContent
  | .text, content => .ok (text_result cfg "text" [] (pyDecode content))
  | .html, content => .ok (text_result cfg "html" [] (stripHtml (pyDecode content)))
  | .csv, content => .ok (make_tabular cfg "csv" [] (parseCsv (pyDecode content)))
  | .excel, content =>
    (P.parse_excel content).map fun wb =>
      make_tabular cfg "excel" [("sheet_count", wb.sheet_names.length)] wb.first_sheet_rows
  | .word, content =>
    (P.parse_docx content).map fun paras =>
      text_result cfg "word" [("paragraph_count", paras.length)] (joinNl paras)
  | .pdf, content => (P.parse_pdf content).bind pdf_result
  | .unknown, _ => .ok (.unsupported extensionRaw)

/-- Modelled from the spec: the diagnostic-string reduction applied to a
caught parsing fault. -/
def shortDiag (e : String) : String :=
  "Error processing document: " ++ takeChars 200 e

/-- Modelled from the spec: `DocumentProcessor.process_document` —
dispatch on the lowercased extension against the configured
supported-extension list; unrecognized extensions yield `unsupported`
with the original extension recorded and the content untouched; any
fault of a per-format handler is caught here and converted to the
`error` variant with a short diagnostic. -/
def process_document (P : ExternalParsers) (cfg : DocumentProcessingConfig)
    (content : List Nat) (filename : String) : ProcessedContent :=
  if extKey filename ∈ cfg.supported_extensions then
    match process_by_kind P cfg (extRaw filename) (kindOfExt (extKey filename)) content with
    | .ok r => r
    | .error e => .error (shortDiag e)
  else
    .unsupported (extRaw filename)

/-!
## Content Generator

`utils/content_generator.py` is also absent from the sources at hand;
`generate_list_schema` is modelled from the specification: a static
template table keyed by the recognized purposes, with unknown purposes
resolving to the general/default template.
-/

/-- A generated list schema: display name plus field definitions
(field name, field type). -/
structure ListSchema where
  displayName : String
  fields : List (String × String)
deriving DecidableEq, Repr

/-- Modelled from the spec: the general/default field template. -/
def general_list_fields : List (String × String) :=
  [("Title", "text"), ("Description", "note"), ("Category", "choice")]

/-- Modelled from the spec: the static template table keyed by the
recognized purposes (`projects`, `events`, `tasks`, `contacts`,
`documents`); the field contents are representative, the keys are the
specified enum. -/
def list_schema_table : List (String × List (String × String)) :=
  [ ("projects",
      [("Title", "text"), ("ProjectName", "text"), ("Status", "choice"),
       ("Priority", "choice"), ("DueDate", "dateTime"), ("PercentComplete", "number")]),
    ("events",
      [("Title", "text"), ("EventDate", "dateTime"), ("Location", "text"),
       ("Organizer", "person")]),
    ("tasks",
      [("Title", "text"), ("AssignedTo", "person"), ("Status", "choice"),
       ("DueDate", "dateTime")]),
    ("contacts",
      [("Title", "text"), ("FullName", "text"), ("Email", "text"),
       ("Phone", "text"), ("Company", "text")]),
    ("documents",
      [("Title", "text"), ("DocumentType", "choice"), ("Author", "person"),
       ("ReviewDate", "dateTime")]) ]

/-- Modelled from the spec: `ContentGenerator.generate_list_schema` — a
pure lookup in the static template table; an unrecognized purpose
resolves to the general/default template instead of failing. -/
def generate_list_schema (purpose display_name : String) : ListSchema :=
  { displayName := display_name
    fields := (list_schema_table.lookup purpose).getD general_list_fields }

/-- Concrete external parsers in which every parsing library call fails,
used to instantiate universally quantified theorems at closed inputs. -/
def stubParsers : ExternalParsers :=
  { parse_docx := fun _ => .error "docx library failure"
    parse_excel := fun _ => .error "xlsx library failure"
    parse_pdf := fun _ => .error "pdf library failure" }

/-- Bytes of an ASCII string (the inverse of `pyDecode` on ASCII). -/
def strBytes (s : String) : List Nat :=
  s.data.map Char.toNat

/-- The pre-truncation text a text-like handler extracts: decoded text
for `txt`/`md`, stripped markup for `html`/`htm`, joined paragraphs for
`docx`; empty for the kinds that do not produce a text preview through
the text truncation rule. -/
def extracted_text (P : ExternalParsers) (content : List Nat) : DocKind → String
  | .text => pyDecode content
  | .html => stripHtml (pyDecode content)
  | .word =>
    match P.parse_docx content with
    | .ok paras => joinNl paras
    | .error _ => ""
  | _ => ""

/-- The `type` string carried by an empty text-like preview for a given
extension. -/
def text_type_of_ext (ext : String) : String :=
  if ext = "html" ∨ ext = "htm" then "html" else "text"

/-- A CSV input with a header row and 51 data rows, one more than the
default `max_rows_preview` of 50. -/
def bigCsvBytes : List Nat :=
  strBytes ⟨'h' :: '\n' :: (List.replicate 51 ['1', '\n']).flatten⟩

/-!
## Theorems
-/

/-- A string truncated to `n` characters has length at most `n`. -/
theorem takeChars_length_le (n : Nat) (s : String) : (takeChars n s).length ≤ n := by
  show (s.data.take n).length ≤ n
  rw [List.length_take]
  omega

/-- Truncating the empty string yields the empty string. -/
theorem takeChars_empty (n : Nat) : takeChars n "" = "" := by
  unfold takeChars
  rw [show ("" : String).data = [] from rfl, List.take_nil]

/-- Inversion: a handler that returns a `textDoc` result either is the
PDF handler, or produced its preview and `truncated` flag through the
text truncation rule applied to the extracted text. -/
theorem process_by_kind_textDoc (P : ExternalParsers) (cfg : DocumentProcessingConfig)
    (er : String) (k : DocKind) (content : List Nat) (ty p : String) (tr : Bool)
    (md : List (String × Nat))
    (h : process_by_kind P cfg er k content = .ok (.textDoc ty p tr md)) :
    (ty = "pdf" ∧ k = DocKind.pdf) ∨
    (p = takeChars cfg.max_text_preview_length (extracted_text P content k) ∧
     tr = decide ((extracted_text P content k).length > cfg.max_text_preview_length)) := by
  cases k with
  | text =>
    right
    simp only [process_by_kind, text_result, Except.ok.injEq, ProcessedContent.textDoc.injEq] at h
    exact ⟨h.2.1.symm, h.2.2.1.symm⟩
  | html =>
    right
    simp only [process_by_kind, text_result, Except.ok.injEq, ProcessedContent.textDoc.injEq] at h
    exact ⟨h.2.1.symm, h.2.2.1.symm⟩
  | csv =>
    simp [process_by_kind, make_tabular] at h
  | excel =>
    cases hx : P.parse_excel content with
    | error e => rw [process_by_kind, hx] at h; simp [Except.map] at h
    | ok wb => rw [process_by_kind, hx] at h; simp [Except.map, make_tabular] at h
  | word =>
    cases hx : P.parse_docx content with
    | error e => rw [process_by_kind, hx] at h; simp [Except.map] at h
    | ok paras =>
      right
      rw [process_by_kind, hx] at h
      simp only [Except.map, text_result, Except.ok.injEq, ProcessedContent.textDoc.injEq] at h
      simp only [extracted_text, hx]
      exact ⟨h.2.1.symm, h.2.2.1.symm⟩
  | pdf =>
    cases hx : P.parse_pdf content with
    | error e => rw [process_by_kind, hx] at h; simp [Except.bind] at h
    | ok pages =>
      left
      rw [process_by_kind, hx] at h
      simp only [Except.bind, pdf_result] at h
      split at h
      · simp at h
      · simp only [Except.ok.injEq, ProcessedContent.textDoc.injEq] at h
        exact ⟨h.1.symm, rfl⟩
  | unknown =>
    simp [process_by_kind] at h

/-- Inversion: a handler that returns a `tabular` result produced its
rows, total and `truncated` flag through the tabular truncation rule
applied to some list of data rows. -/
theorem process_by_kind_tabular (P : ExternalParsers) (cfg : DocumentProcessingConfig)
    (er : String) (k : DocKind) (content : List Nat) (ty : String) (hd : List String)
    (rows : List (List String)) (total : Nat) (tr : Bool) (md : List (String × Nat))
    (h : process_by_kind P cfg er k content = .ok (.tabular ty hd rows total tr md)) :
    ∃ d : List (List String), rows = d.take cfg.max_rows_preview ∧ total = d.length ∧
      tr = decide (d.length > cfg.max_rows_preview) := by
  cases k with
  | text => simp [process_by_kind, text_result] at h
  | html => simp [process_by_kind, text_result] at h
  | csv =>
    refine ⟨(parseCsv (pyDecode content)).tail, ?_⟩
    simp only [process_by_kind, make_tabular, Except.ok.injEq,
      ProcessedContent.tabular.injEq] at h
    exact ⟨h.2.2.1.symm, h.2.2.2.1.symm, h.2.2.2.2.1.symm⟩
  | excel =>
    cases hx : P.parse_excel content with
    | error e => rw [process_by_kind, hx] at h; simp [Except.map] at h
    | ok wb =>
      refine ⟨wb.first_sheet_rows.tail, ?_⟩
      rw [process_by_kind, hx] at h
      simp only [Except.map, make_tabular, Except.ok.injEq,
        ProcessedContent.tabular.injEq] at h
      exact ⟨h.2.2.1.symm, h.2.2.2.1.symm, h.2.2.2.2.1.symm⟩
  | word =>
    cases hx : P.parse_docx content with
    | error e => rw [process_by_kind, hx] at h; simp [Except.map] at h
    | ok paras => rw [process_by_kind, hx] at h; simp [Except.map, text_result] at h
  | pdf =>
    cases hx : P.parse_pdf content with
    | error e => rw [process_by_kind, hx] at h; simp [Except.bind] at h
    | ok pages =>
      rw [process_by_kind, hx] at h
      simp only [Except.bind, pdf_result] at h
      split at h
      · simp at h
      · simp at h
  | unknown =>
    simp [process_by_kind] at h

/-- C1: for every input whose result has a text-like type (`text` for
txt/md, `html`, `word` for docx), the preview length never exceeds
`max_text_preview_length` and `truncated` is true exactly when the
original extracted text length exceeds that bound. -/
theorem c1_text_preview_bound (P : ExternalParsers) (cfg : DocumentProcessingConfig)
    (content : List Nat) (filename ty p : String) (tr : Bool) (md : List (String × Nat))
    (h : process_document P cfg content filename = .textDoc ty p tr md)
    (hty : ty ∈ ["text", "html", "word"]) :
    p.length ≤ cfg.max_text_preview_length ∧
    p = takeChars cfg.max_text_preview_length
        (extracted_text P content (kindOfExt (extKey filename))) ∧
    (tr = true ↔
      (extracted_text P content (kindOfExt (extKey filename))).length
        > cfg.max_text_preview_length) := by
  by_cases hs : extKey filename ∈ cfg.supported_extensions
  · rw [process_document, if_pos hs] at h
    cases hk : process_by_kind P cfg (extRaw filename) (kindOfExt (extKey filename)) content with
    | error e => rw [hk] at h; simp at h
    | ok r =>
      rw [hk] at h
      simp only at h
      subst h
      rcases process_by_kind_textDoc P cfg (extRaw filename) (kindOfExt (extKey filename))
          content ty p tr md hk with ⟨hpdf, -⟩ | ⟨hp, htr⟩
      · subst hpdf; simp at hty
      · subst hp
        refine ⟨takeChars_length_le _ _, rfl, ?_⟩
        subst htr
        simp
  · rw [process_document, if_neg hs] at h
    simp at h

/-- Witness for C1 at content `"hello"`, filename `"t.txt"`, default
configuration. -/
theorem c1_text_preview_bound_witness :
    ("hello" : String).length ≤ DOCUMENT_PROCESSING.max_text_preview_length ∧
    ("hello" : String) = takeChars DOCUMENT_PROCESSING.max_text_preview_length
        (extracted_text stubParsers (strBytes "hello") (kindOfExt (extKey "t.txt"))) ∧
    ((false : Bool) = true ↔
      (extracted_text stubParsers (strBytes "hello") (kindOfExt (extKey "t.txt"))).length
        > DOCUMENT_PROCESSING.max_text_preview_length) :=
  c1_text_preview_bound stubParsers DOCUMENT_PROCESSING (strBytes "hello") "t.txt"
    "text" "hello" false [] (by decide) (by decide)

/-- C2: the processor always returns a `ProcessedContent` value — an
unrecognized extension yields the `unsupported` variant, and a fault of
a per-format handler is caught at the boundary and converted to the
`error` variant carrying a short diagnostic, so no fault crosses to the
caller that serializes the result. -/
theorem c2_no_fault_escapes (P : ExternalParsers) (cfg : DocumentProcessingConfig)
    (content : List Nat) (filename : String) :
    (extKey filename ∉ cfg.supported_extensions →
      process_document P cfg content filename = .unsupported (extRaw filename)) ∧
    (∀ e : String, extKey filename ∈ cfg.supported_extensions →
      process_by_kind P cfg (extRaw filename) (kindOfExt (extKey filename)) content = .error e →
      process_document P cfg content filename = .error (shortDiag e)) := by
  constructor
  · intro hs
    rw [process_document, if_neg hs]
  · intro e hs he
    rw [process_document, if_pos hs, he]

/-- Witness for C2: an unknown extension yields `unsupported`, and a
failing Excel library call yields the `error` variant. -/
theorem c2_no_fault_escapes_witness :
    process_document stubParsers DOCUMENT_PROCESSING [1, 2, 3] "a.xyz"
      = .unsupported "xyz" ∧
    process_document stubParsers DOCUMENT_PROCESSING [1, 2, 3] "a.xlsx"
      = .error (shortDiag "xlsx library failure") :=
  ⟨(c2_no_fault_escapes stubParsers DOCUMENT_PROCESSING [1, 2, 3] "a.xyz").1 (by decide),
   (c2_no_fault_escapes stubParsers DOCUMENT_PROCESSING [1, 2, 3] "a.xlsx").2
     "xlsx library failure" (by decide) rfl⟩

/-- C3: whenever a tabular (CSV/Excel) result reports more data rows
than `max_rows_preview`, exactly `max_rows_preview` rows appear in the
result and `truncated` is true. -/
theorem c3_tabular_row_cap (P : ExternalParsers) (cfg : DocumentProcessingConfig)
    (content : List Nat) (filename ty : String) (hd : List String)
    (rows : List (List String)) (total : Nat) (tr : Bool) (md : List (String × Nat))
    (h : process_document P cfg content filename = .tabular ty hd rows total tr md)
    (htotal : total > cfg.max_rows_preview) :
    rows.length = cfg.max_rows_preview ∧ tr = true := by
  by_cases hs : extKey filename ∈ cfg.supported_extensions
  · rw [process_document, if_pos hs] at h
    cases hk : process_by_kind P cfg (extRaw filename) (kindOfExt (extKey filename)) content with
    | error e => rw [hk] at h; simp at h
    | ok r =>
      rw [hk] at h
      simp only at h
      subst h
      obtain ⟨d, hrows, htot, htr⟩ := process_by_kind_tabular P cfg (extRaw filename)
        (kindOfExt (extKey filename)) content ty hd rows total tr md hk
      subst hrows
      subst htot
      constructor
      · rw [List.length_take]; omega
      · rw [htr]; simp; omega
  · rw [process_document, if_neg hs] at h
    simp at h

/-- Witness for C3 at a CSV input with 51 data rows and the default
configuration (`max_rows_preview = 50`). -/
theorem c3_tabular_row_cap_witness :
    (List.replicate 50 (["1"] : List String)).length = DOCUMENT_PROCESSING.max_rows_preview ∧
    (true : Bool) = true :=
  c3_tabular_row_cap stubParsers DOCUMENT_PROCESSING bigCsvBytes "t.csv"
    "csv" ["h"] (List.replicate 50 ["1"]) 51 true [] (by decide) (by decide)

/-- C4: the processor is deterministic — two calls on identical
`(content, filename)` inputs yield identical results (the model carries
no processing-duration metadata). -/
theorem c4_deterministic (P : ExternalParsers) (cfg : DocumentProcessingConfig)
    (c₁ c₂ : List Nat) (f₁ f₂ : String) (hc : c₁ = c₂) (hf : f₁ = f₂) :
    process_document P cfg c₁ f₁ = process_document P cfg c₂ f₂ := by
  rw [hc, hf]

/-- Witness for C4 at a concrete repeated call. -/
theorem c4_deterministic_witness :
    process_document stubParsers DOCUMENT_PROCESSING (strBytes "x") "t.txt"
      = process_document stubParsers DOCUMENT_PROCESSING (strBytes "x") "t.txt" :=
  c4_deterministic stubParsers DOCUMENT_PROCESSING (strBytes "x") (strBytes "x")
    "t.txt" "t.txt" rfl rfl

/-- C5: for every filename with a recognized text extension
(txt/md/html/htm), empty bytes are valid input: the result is a text
preview that is empty and not truncated, never the error variant. -/
theorem c5_empty_input (P : ExternalParsers) (cfg : DocumentProcessingConfig)
    (filename : String)
    (hx : extKey filename = "txt" ∨ extKey filename = "md" ∨
      extKey filename = "html" ∨ extKey filename = "htm")
    (hs : extKey filename ∈ cfg.supported_extensions) :
    process_document P cfg [] filename
      = .textDoc (text_type_of_ext (extKey filename)) "" false [] := by
  rw [process_document, if_pos hs]
  have hdec : pyDecode [] = "" := rfl
  have hstrip : stripHtml "" = "" := rfl
  have hlen : ∀ b : Nat, decide (("" : String).length > b) = false := by
    intro b; simp [String.length]
  rcases hx with h | h | h | h <;>
    rw [h] <;>
    simp [kindOfExt, process_by_kind, text_result, hdec, hstrip, hlen,
      takeChars_empty, text_type_of_ext]

/-- Witness for C5: empty bytes with filename `"t.txt"` yield an empty,
non-truncated text preview. -/
theorem c5_empty_input_witness :
    process_document stubParsers DOCUMENT_PROCESSING [] "t.txt"
      = .textDoc "text" "" false [] :=
  c5_empty_input stubParsers DOCUMENT_PROCESSING "t.txt" (by decide) (by decide)

/-- C6: the concrete input `b"a,b\n1,2\n3,4\n"` with filename `"t.csv"`
yields type `csv`, the header-separated rows `[["1","2"],["3","4"]]`
with headers `["a","b"]`, and `truncated = false`. -/
theorem c6_csv_concrete :
    process_document stubParsers DOCUMENT_PROCESSING (strBytes "a,b\n1,2\n3,4\n") "t.csv"
      = .tabular "csv" ["a", "b"] [["1", "2"], ["3", "4"]] 2 false [] := by
  decide

/-- C7: the configured supported-extension list equals
`{csv, xlsx, xls, docx, pdf, txt, md, html, htm}`, and every filename
whose lowercased extension is outside the configured list yields the
`unsupported` variant recording the original extension, independently of
the content bytes. -/
theorem c7_dispatch :
    DOCUMENT_PROCESSING.supported_extensions
      = ["csv", "xlsx", "xls", "docx", "pdf", "txt", "md", "html", "htm"] ∧
    ∀ (P : ExternalParsers) (cfg : DocumentProcessingConfig) (c₁ c₂ : List Nat)
      (filename : String),
      extKey filename ∉ cfg.supported_extensions →
      process_document P cfg c₁ filename = .unsupported (extRaw filename) ∧
      process_document P cfg c₁ filename = process_document P cfg c₂ filename := by
  refine ⟨rfl, ?_⟩
  intro P cfg c₁ c₂ f hs
  constructor
  · rw [process_document, if_neg hs]
  · rw [process_document, if_neg hs, process_document, if_neg hs]

/-- Witness for C7 at filename `"a.xyz"` with two different contents. -/
theorem c7_dispatch_witness :
    DOCUMENT_PROCESSING.supported_extensions
      = ["csv", "xlsx", "xls", "docx", "pdf", "txt", "md", "html", "htm"] ∧
    process_document stubParsers DOCUMENT_PROCESSING [1, 2, 3] "a.xyz"
      = .unsupported (extRaw "a.xyz") ∧
    process_document stubParsers DOCUMENT_PROCESSING [1, 2, 3] "a.xyz"
      = process_document stubParsers DOCUMENT_PROCESSING [] "a.xyz" :=
  ⟨c7_dispatch.1,
   (c7_dispatch.2 stubParsers DOCUMENT_PROCESSING [1, 2, 3] [] "a.xyz" (by decide)).1,
   (c7_dispatch.2 stubParsers DOCUMENT_PROCESSING [1, 2, 3] [] "a.xyz" (by decide)).2⟩

/-- C8: every purpose outside the recognized enum (projects, events,
tasks, contacts, documents) resolves to the general/default template
rather than failing. -/
theorem c8_unknown_purpose (purpose display_name : String)
    (hp : purpose ∉ ["projects", "events", "tasks", "contacts", "documents"]) :
    generate_list_schema purpose display_name
      = { displayName := display_name, fields := general_list_fields } := by
  simp only [List.mem_cons, List.not_mem_nil, or_false, not_or] at hp
  obtain ⟨h1, h2, h3, h4, h5⟩ := hp
  have b1 : (purpose == "projects") = false := beq_eq_false_iff_ne.mpr h1
  have b2 : (purpose == "events") = false := beq_eq_false_iff_ne.mpr h2
  have b3 : (purpose == "tasks") = false := beq_eq_false_iff_ne.mpr h3
  have b4 : (purpose == "contacts") = false := beq_eq_false_iff_ne.mpr h4
  have b5 : (purpose == "documents") = false := beq_eq_false_iff_ne.mpr h5
  simp [generate_list_schema, list_schema_table, List.lookup, b1, b2, b3, b4, b5]

/-- Witness for C8 at the unrecognized purpose `"banana"`. -/
theorem c8_unknown_purpose_witness :
    generate_list_schema "banana" "My List"
      = { displayName := "My List", fields := general_list_fields } :=
  c8_unknown_purpose "banana" "My List" (by decide)

/-- C9 counterexample: the two `parse_site_url` functions disagree on
the site-less URL `"https://example.sharepoint.com"` — the tool layer
returns site name `"root"`, the service layer returns `""`. -/
theorem c9_parse_site_url_ne :
    site_tools_parse_site_url "https://example.sharepoint.com"
      ≠ service_parse_site_url "https://example.sharepoint.com" := by
  decide

/-- C9 (amended): the two `parse_site_url` functions always agree on the
domain, and agree on the whole pair whenever the protocol-stripped URL
has more than two slash-separated parts with second part `"sites"`. -/
theorem c9_parse_site_url_agree (site_url : String) :
    (site_tools_parse_site_url site_url).1 = (service_parse_site_url site_url).1 ∧
    ((pySplit (stripProtocol site_url) "/").length > 2 →
      (pySplit (stripProtocol site_url) "/").getD 1 "" = "sites" →
      site_tools_parse_site_url site_url = service_parse_site_url site_url) := by
  constructor
  · rfl
  · intro h1 h2
    have h2x : (pySplit (stripProtocol site_url) "/")[1]?.getD "" = "sites" := by
      simpa [List.getD_eq_getElem?_getD] using h2
    simp [site_tools_parse_site_url, service_parse_site_url, h1, h2x]

/-- Witness for C9 (amended) at the standard site URL shape. -/
theorem c9_parse_site_url_agree_witness :
    (site_tools_parse_site_url "https://example.sharepoint.com/sites/test").1
      = (service_parse_site_url "https://example.sharepoint.com/sites/test").1 ∧
    site_tools_parse_site_url "https://example.sharepoint.com/sites/test"
      = service_parse_site_url "https://example.sharepoint.com/sites/test" :=
  ⟨(c9_parse_site_url_agree "https://example.sharepoint.com/sites/test").1,
   (c9_parse_site_url_agree "https://example.sharepoint.com/sites/test").2
     (by decide) (by decide)⟩

/-- C10: `is_token_valid` is total and returns `false` whenever the
expiry is missing; when an expiry is present it returns `true` exactly
when the current time is strictly before the expiry. -/
theorem c10_is_token_valid (ctx : SharePointContext) (now : Int) :
    (ctx.token_expiry = none → ctx.is_token_valid now = false) ∧
    (∀ e : Int, ctx.token_expiry = some e → (ctx.is_token_valid now = true ↔ now < e)) := by
  constructor
  · intro h
    simp [SharePointContext.is_token_valid, h]
  · intro e h
    simp [SharePointContext.is_token_valid, h]

/-- Witness for C10 at a missing expiry and at a present expiry. -/
theorem c10_is_token_valid_witness :
    ({ access_token := "tok", token_expiry := none : SharePointContext }.is_token_valid 0
      = false) ∧
    ({ access_token := "tok", token_expiry := some 10 : SharePointContext }.is_token_valid 5
      = true ↔ (5 : Int) < 10) :=
  ⟨(c10_is_token_valid { access_token := "tok", token_expiry := none } 0).1 rfl,
   (c10_is_token_valid { access_token := "tok", token_expiry := some 10 } 5).2 10 rfl⟩
